import Mathlib

/-!
Verification of the rendering-synchronization core of the Black 2D engine.

The definitions below are a shallow embedding of the JavaScript sources:
`CanvasDriver` (src/drivers/canvas/CanvasDriver.js), the `Sprite` and
`BitmapTextField` display nodes and their `onRender` synchronization
(unnamed source parts).  JavaScript numbers that can be `NaN` or infinite
are embedded as `JsNum`; ordinary finite quantities are embedded as `ℚ`.
Stateful methods become pure state-transition functions; a method that can
fail a `Debug.assert` returns an `Option`.
-/

/-- Embedding of a JavaScript number: a finite value, `NaN`, or one of the
two infinities.  Used where the source can actually meet a non-finite
value (transform components). -/
inductive JsNum
  | fin (q : ℚ)
  | nan
  | posInf
  | negInf
deriving DecidableEq

/-- Embedding of JavaScript `isNaN` applied to a number: true exactly on
`NaN`, false on finite values and on both infinities. -/
def JsNum.isNaN : JsNum → Bool
  | .nan => true
  | _ => false

/-- Embedding of JavaScript `isFinite`: false on `NaN` and on both
infinities. -/
def JsNum.isFinite : JsNum → Bool
  | .fin _ => true
  | _ => false

/-- Multiplication of a JavaScript number by a finite factor (the stage
scale factor), following IEEE semantics: `NaN` propagates, an infinity
times a nonzero finite keeps or flips sign, an infinity times zero is
`NaN`. -/
def JsNum.mulQ : JsNum → ℚ → JsNum
  | .fin q, s => .fin (q * s)
  | .nan, _ => .nan
  | .posInf, s => if 0 < s then .posInf else if s < 0 then .negInf else .nan
  | .negInf, s => if 0 < s then .negInf else if s < 0 then .posInf else .nan

/-- Truncation of a rational toward zero, as JavaScript `ToInt32` first
truncates its argument. -/
def ratTrunc (q : ℚ) : Int :=
  if 0 ≤ q then ⌊q⌋ else ⌈q⌉

/-- Wrap an integer into the signed 32-bit range, the second stage of
JavaScript `ToInt32`. -/
def int32Wrap (i : Int) : Int :=
  let m := Int.emod i 4294967296
  if m < 2147483648 then m else m - 4294967296

/-- Embedding of the JavaScript `| 0` coercion (`ToInt32`): non-finite
values map to `0`; finite values are truncated toward zero and wrapped
into signed 32-bit range. -/
def JsNum.toInt32 : JsNum → Int
  | .fin q => int32Wrap (ratTrunc q)
  | _ => 0

/-- A 2D affine matrix as stored in the engine's `Matrix` class: six
components `[a, b, c, d, tx, ty]`, each a JavaScript number. -/
structure Matrix2D where
  a : JsNum
  b : JsNum
  c : JsNum
  d : JsNum
  tx : JsNum
  ty : JsNum
deriving DecidableEq

/-- A rectangle (the engine's `Rectangle` value used by textures). -/
structure Rect where
  x : ℚ
  y : ℚ
  width : ℚ
  height : ℚ
deriving DecidableEq

/-- Embedding of the engine `Texture`: validity flag, atlas `region`,
logical `untrimmedRegion`, display-space render size, a native-image
identity, and the fields read by the `Sprite.texture` setter. -/
structure Texture where
  isValid : Bool
  region : Rect
  untrimmedRegion : Rect
  renderWidth : ℚ
  renderHeight : ℚ
  native : Nat
  mSlice9borders : Option Rect
  registrationPointX : ℚ
  registrationPointY : ℚ
deriving DecidableEq

/-- Modelled from the spec: the `BlendMode` enumeration is not among the
provided source files; the sources reference `BlendMode.AUTO` (the
"inherit" sentinel) and the spec names `MULTIPLY`; ordinary concrete
modes are represented by the remaining constructors. -/
inductive BlendMode
  | AUTO
  | NORMAL
  | ADD
  | MULTIPLY
  | SCREEN
deriving DecidableEq

/-- Modelled from the spec: the `CanvasBlendMode` lookup table file is not
among the provided sources; the spec says concrete blend modes are
translated into backend-native composite-operation identifiers. -/
def CanvasBlendMode : BlendMode → String
  | .AUTO => "auto"
  | .NORMAL => "source-over"
  | .ADD => "lighter"
  | .MULTIPLY => "multiply"
  | .SCREEN => "screen"

/-- One `ctx.drawImage` call with its full argument list (native image,
source rectangle in atlas pixels, destination rectangle in surface
pixels). -/
structure DrawImageCall where
  native : Nat
  sx : ℚ
  sy : ℚ
  sw : ℚ
  sh : ℚ
  dx : ℚ
  dy : ℚ
  dw : ℚ
  dh : ℚ
deriving DecidableEq

/-- Observable state of the 2D drawing context (`this.mCtx`): last applied
alpha, composite operation and transform, surface size, and the list of
issued `drawImage` calls in order. -/
structure CanvasCtx where
  globalAlpha : ℚ
  globalCompositeOperation : String
  ctxA : JsNum
  ctxB : JsNum
  ctxC : JsNum
  ctxD : JsNum
  ctxTx : JsNum
  ctxTy : JsNum
  canvasWidth : ℚ
  canvasHeight : ℚ
  drawCalls : List DrawImageCall
deriving DecidableEq

/-- Embedding of `CanvasDriver` state: the shadow alpha (`mGlobalAlpha`,
`-1` used as the after-resize sentinel), the shadow composite operation
(`mGlobalBlendMode`, `none` embeds JavaScript `null`), scale factor,
pixel-snapping flag, client size, last transform, and the context. -/
structure CanvasDriver where
  mGlobalAlpha : ℚ
  mGlobalBlendMode : Option String
  mStageScaleFactor : ℚ
  mSnapToPixels : Bool
  mClientWidth : ℚ
  mClientHeight : ℚ
  mTransform : Option Matrix2D
  mCtx : CanvasCtx
deriving DecidableEq

/-- Embedding of `CanvasDriver.__onResize`.  The `super.__onResize` part
(updating client size) is modelled from the spec since `VideoNullDriver`
is not among the provided sources; the shadow resets
`this.mGlobalBlendMode = null; this.mGlobalAlpha = -1;` and the canvas
resize are from the source. -/
def CanvasDriver.onResize (drv : CanvasDriver) (w h : ℚ) : CanvasDriver :=
  { drv with
    mClientWidth := w
    mClientHeight := h
    mGlobalBlendMode := none
    mGlobalAlpha := -1
    mCtx := { drv.mCtx with
      canvasWidth := w * drv.mStageScaleFactor
      canvasHeight := h * drv.mStageScaleFactor } }

/-- Embedding of `CanvasDriver.drawTexture`: an invalid texture returns
immediately; otherwise one `drawImage` call is appended, sourcing
`texture.region` and writing to `untrimmedRegion`/render size scaled by
the stage scale factor. -/
def CanvasDriver.drawTexture (drv : CanvasDriver) (texture : Texture) : CanvasDriver :=
  if texture.isValid = false then drv
  else
    let scale := drv.mStageScaleFactor
    let call : DrawImageCall :=
      { native := texture.native
        sx := texture.region.x
        sy := texture.region.y
        sw := texture.region.width
        sh := texture.region.height
        dx := texture.untrimmedRegion.x * scale
        dy := texture.untrimmedRegion.y * scale
        dw := texture.renderWidth * scale
        dh := texture.renderHeight * scale }
    { drv with mCtx := { drv.mCtx with drawCalls := drv.mCtx.drawCalls ++ [call] } }

/-- Embedding of `CanvasDriver.drawTextureWithOffset`: as `drawTexture`
but with the destination origin shifted by `(ox, oy)` before scaling. -/
def CanvasDriver.drawTextureWithOffset (drv : CanvasDriver) (texture : Texture) (ox oy : ℚ) : CanvasDriver :=
  if texture.isValid = false then drv
  else
    let scale := drv.mStageScaleFactor
    let call : DrawImageCall :=
      { native := texture.native
        sx := texture.region.x
        sy := texture.region.y
        sw := texture.region.width
        sh := texture.region.height
        dx := (ox + texture.untrimmedRegion.x) * scale
        dy := (oy + texture.untrimmedRegion.y) * scale
        dw := texture.renderWidth * scale
        dh := texture.renderHeight * scale }
    { drv with mCtx := { drv.mCtx with drawCalls := drv.mCtx.drawCalls ++ [call] } }

/-- Embedding of `CanvasDriver.setTransform`: six `Debug.assert(!isNaN …)`
checks (an assertion failure is embedded as `none`), then the matrix is
stored and applied to the context, translation components scaled by the
stage scale factor and, when `mSnapToPixels` is set, passed through
`| 0`. -/
def CanvasDriver.setTransform (drv : CanvasDriver) (m : Matrix2D) : Option CanvasDriver :=
  if m.a.isNaN || m.b.isNaN || m.c.isNaN || m.d.isNaN || m.tx.isNaN || m.ty.isNaN then
    none
  else
    let scale := drv.mStageScaleFactor
    if drv.mSnapToPixels = true then
      some { drv with
        mTransform := some m
        mCtx := { drv.mCtx with
          ctxA := m.a, ctxB := m.b, ctxC := m.c, ctxD := m.d
          ctxTx := JsNum.fin ((JsNum.mulQ m.tx scale).toInt32 : ℚ)
          ctxTy := JsNum.fin ((JsNum.mulQ m.ty scale).toInt32 : ℚ) } }
    else
      some { drv with
        mTransform := some m
        mCtx := { drv.mCtx with
          ctxA := m.a, ctxB := m.b, ctxC := m.c, ctxD := m.d
          ctxTx := JsNum.mulQ m.tx scale
          ctxTy := JsNum.mulQ m.ty scale } }

/-- Embedding of the `CanvasDriver` `globalAlpha` setter: skipped when the
value equals the shadow `mGlobalAlpha`; otherwise both the shadow and the
context are updated. -/
def CanvasDriver.setGlobalAlpha (drv : CanvasDriver) (value : ℚ) : CanvasDriver :=
  if value = drv.mGlobalAlpha then drv
  else { drv with
    mGlobalAlpha := value
    mCtx := { drv.mCtx with globalAlpha := value } }

/-- Embedding of the `CanvasDriver` `globalBlendMode` setter: `AUTO` is
rejected before lookup; the mode is translated through `CanvasBlendMode`
and skipped when it equals the shadow `mGlobalBlendMode`. -/
def CanvasDriver.setGlobalBlendMode (drv : CanvasDriver) (blendMode : BlendMode) : CanvasDriver :=
  if blendMode = BlendMode.AUTO then drv
  else
    let translated := CanvasBlendMode blendMode
    if drv.mGlobalBlendMode = some translated then drv
    else { drv with
      mGlobalBlendMode := some translated
      mCtx := { drv.mCtx with globalCompositeOperation := translated } }

/-- Modelled from the spec: the `DirtyFlag` enumeration file is not among
the provided sources; the spec requires a bitmask with (at least) two
independent bits `RENDER` and `RENDER_CACHE`, set via bitwise OR.  They
are fixed here as the distinct single bits `2^3` and `2^4`. -/
def DirtyFlag.RENDER : Nat := 8

/-- Modelled from the spec: see `DirtyFlag.RENDER`. -/
def DirtyFlag.RENDER_CACHE : Nat := 16

/-- Modelled from the spec: `setDirty(flagSet, …)` ORs the flag set into
the node's mask (single-node view; downward propagation to children does
not affect the node's own mask). -/
def setDirtyMask (mask flags : Nat) : Nat := mask ||| flags

/-- Embedding of the per-node renderer cache object (the canvas
`BitmapText` renderer plus the generic fields every renderer carries:
transform, alpha, blend mode, visibility, dirty snapshot).  The renderer
class itself is not among the provided sources; its field set is the one
written by `BitmapTextField.onRender`. -/
structure Renderer where
  transform : Matrix2D
  alpha : ℚ
  blendMode : BlendMode
  visible : Bool
  text : String
  data : Option Nat
  multiline : Bool
  lineHeight : ℚ
  fieldWidth : ℚ
  fieldHeight : ℚ
  autoSize : Bool
  boundsWidth : ℚ
  boundsHeight : ℚ
  dirty : Nat
deriving DecidableEq

/-- Embedding of the `BitmapTextField` display node: type-specific fields
from its constructor plus the inherited `DisplayObject` fields read by
`onRender` (`mDirty`, `mAlpha`, `blendMode`, `mVisible`,
`finalTransformation`). -/
structure BitmapTextField where
  mData : Option Nat
  mText : String
  mAutoSize : Bool
  mMultiline : Bool
  mLineHeight : ℚ
  mTextBoundsWidth : ℚ
  mTextBoundsHeight : ℚ
  mFieldWidth : ℚ
  mFieldHeight : ℚ
  mDirty : Nat
  mAlpha : ℚ
  blendMode : BlendMode
  mVisible : Bool
  finalTransformation : Matrix2D
deriving DecidableEq

/-- Embedding of `text.replace(/\n/g, '')`: remove every newline
character. -/
def stripNewlines (s : String) : String :=
  String.mk (s.data.filter (fun ch => ch ≠ Char.ofNat 10))

/-- Embedding of `BitmapTextField.onGetLocalBounds`: while `RENDER_CACHE`
is pending the text is re-measured (newlines stripped unless multiline)
into `mTextBounds`; the returned size is the field size when `autoSize`
is off, the measured text size otherwise.  `TextMetricsEx.measureBitmap`
is external to the provided sources and is passed in as the `measure`
oracle (text, font data, line height ↦ measured width and height). -/
def BitmapTextField.measureStep
    (measure : String → Option Nat → ℚ → ℚ × ℚ)
    (node : BitmapTextField) : BitmapTextField :=
  if node.mDirty &&& DirtyFlag.RENDER_CACHE ≠ 0 then
    let text := if node.mMultiline = false then stripNewlines node.mText else node.mText
    let measured := measure text node.mData node.mLineHeight
    { node with mTextBoundsWidth := measured.1, mTextBoundsHeight := measured.2 }
  else node

/-- See `BitmapTextField.measureStep` for the re-measuring half. -/
def BitmapTextField.onGetLocalBounds
    (measure : String → Option Nat → ℚ → ℚ × ℚ)
    (node : BitmapTextField) : BitmapTextField × (ℚ × ℚ) :=
  let node := node.measureStep measure
  if node.mAutoSize = false then (node, (node.mFieldWidth, node.mFieldHeight))
  else (node, (node.mTextBoundsWidth, node.mTextBoundsHeight))

/-- The `RENDER` branch of `BitmapTextField.onRender`: when the `RENDER`
bit is set, transform, alpha (multiplied by the parent renderer's alpha),
resolved blend mode (`AUTO` inherits the parent's) and visibility are
copied into the renderer, and the bit is cleared with
`this.mDirty ^= DirtyFlag.RENDER`. -/
def renderSyncStep (node : BitmapTextField) (parentRenderer renderer : Renderer) :
    BitmapTextField × Renderer :=
  if node.mDirty &&& DirtyFlag.RENDER ≠ 0 then
    ({ node with mDirty := node.mDirty ^^^ DirtyFlag.RENDER },
     { renderer with
        transform := node.finalTransformation
        alpha := node.mAlpha * parentRenderer.alpha
        blendMode := if node.blendMode = BlendMode.AUTO then parentRenderer.blendMode else node.blendMode
        visible := node.mVisible })
  else (node, renderer)

/-- The rebuild performed inside the `RENDER_CACHE` branch of
`BitmapTextField.onRender`: the type-specific fields are copied into the
renderer and `onGetLocalBounds` (which re-measures the text, mutating the
node's `mTextBounds`) supplies the bounds. -/
def rebuildCache (measure : String → Option Nat → ℚ → ℚ × ℚ)
    (node : BitmapTextField) (renderer : Renderer) :
    BitmapTextField × Renderer :=
  let bounded := node.onGetLocalBounds measure
  (bounded.1,
   { renderer with
      text := node.mText
      data := node.mData
      multiline := node.mMultiline
      lineHeight := node.mLineHeight
      fieldWidth := node.mFieldWidth
      fieldHeight := node.mFieldHeight
      autoSize := node.mAutoSize
      boundsWidth := bounded.2.1
      boundsHeight := bounded.2.2 })

/-- The `RENDER_CACHE` branch of `BitmapTextField.onRender`: when the bit
is set the renderer is rebuilt, and the bit is cleared with
`this.mDirty ^= DirtyFlag.RENDER_CACHE` only if `renderer.isRenderable`
is true afterwards.  `isRenderable` is a getter of the renderer class
(not among the provided sources) and is passed in as an oracle predicate
on the rebuilt renderer state. -/
def cacheSyncStep (isRenderable : Renderer → Bool)
    (measure : String → Option Nat → ℚ → ℚ × ℚ)
    (node : BitmapTextField) (renderer : Renderer) :
    BitmapTextField × Renderer :=
  if node.mDirty &&& DirtyFlag.RENDER_CACHE ≠ 0 then
    let rebuilt := rebuildCache measure node renderer
    (if isRenderable rebuilt.2 then
       { rebuilt.1 with mDirty := rebuilt.1.mDirty ^^^ DirtyFlag.RENDER_CACHE }
     else rebuilt.1,
     rebuilt.2)
  else (node, renderer)

/-- Embedding of `BitmapTextField.onRender`: snapshot the dirty mask, run
the `RENDER` branch, then the `RENDER_CACHE` branch, and store the
snapshot in `renderer.dirty`.  The returned pair is the updated node and
the renderer handed to `driver.registerRenderer`. -/
def BitmapTextField.onRender (isRenderable : Renderer → Bool)
    (measure : String → Option Nat → ℚ → ℚ × ℚ)
    (node : BitmapTextField) (renderer parentRenderer : Renderer) :
    BitmapTextField × Renderer :=
  let oldDirty := node.mDirty
  let afterRender := renderSyncStep node parentRenderer renderer
  let afterCache := cacheSyncStep isRenderable measure afterRender.1 afterRender.2
  (afterCache.1, { afterCache.2 with dirty := oldDirty })

/-- Embedding of the `BitmapTextField.text` setter: no-op when the value
is the current text, otherwise store it and set `RENDER_CACHE`. -/
def BitmapTextField.setText (node : BitmapTextField) (value : String) : BitmapTextField :=
  if node.mText = value then node
  else { node with mText := value, mDirty := setDirtyMask node.mDirty DirtyFlag.RENDER_CACHE }

/-- Embedding of the `BitmapTextField.fieldWidth` setter. -/
def BitmapTextField.setFieldWidth (node : BitmapTextField) (value : ℚ) : BitmapTextField :=
  if value = node.mFieldWidth then node
  else { node with mFieldWidth := value, mDirty := setDirtyMask node.mDirty DirtyFlag.RENDER_CACHE }

/-- Embedding of the `BitmapTextField.fieldHeight` setter. -/
def BitmapTextField.setFieldHeight (node : BitmapTextField) (value : ℚ) : BitmapTextField :=
  if value = node.mFieldHeight then node
  else { node with mFieldHeight := value, mDirty := setDirtyMask node.mDirty DirtyFlag.RENDER_CACHE }

/-- Embedding of the `BitmapTextField.autoSize` setter. -/
def BitmapTextField.setAutoSize (node : BitmapTextField) (value : Bool) : BitmapTextField :=
  if node.mAutoSize = value then node
  else { node with mAutoSize := value, mDirty := setDirtyMask node.mDirty DirtyFlag.RENDER_CACHE }

/-- Embedding of the `Sprite` display node: the fields touched by its
`texture` setter plus the dirty mask. -/
structure Sprite where
  mTexture : Option Texture
  mSlice9grid : Option Rect
  mAnchorX : ℚ
  mAnchorY : ℚ
  mDirty : Nat
deriving DecidableEq

/-- Embedding of the `Sprite.slice9grid` setter: store the rectangle,
mark `RENDER` (`setRenderDirty`) and `RENDER_CACHE`. -/
def Sprite.setSlice9grid (s : Sprite) (value : Option Rect) : Sprite :=
  { s with
    mSlice9grid := value
    mDirty := setDirtyMask (setDirtyMask s.mDirty DirtyFlag.RENDER) DirtyFlag.RENDER_CACHE }

/-- Modelled from the spec: the `DisplayObject.anchorX` setter is not
among the provided sources; per the spec a node marks itself dirty on any
local mutation, so the anchor setters store the value and mark
`RENDER`. -/
def Sprite.setAnchorX (s : Sprite) (value : ℚ) : Sprite :=
  { s with mAnchorX := value, mDirty := setDirtyMask s.mDirty DirtyFlag.RENDER }

/-- Modelled from the spec: see `Sprite.setAnchorX`. -/
def Sprite.setAnchorY (s : Sprite) (value : ℚ) : Sprite :=
  { s with mAnchorY := value, mDirty := setDirtyMask s.mDirty DirtyFlag.RENDER }

/-- Embedding of the `Sprite.texture` setter: no-op when the argument is
the texture already held (`===`); otherwise store it, copy a nine-slice
grid when the texture carries one, adopt the registration point as
anchor, and mark `RENDER_CACHE` and `RENDER`.  Passing `null` down the
non-equal path dereferences `texture.mSlice9borders` and throws in the
source, embedded as `none`. -/
def Sprite.setTexture (s : Sprite) (texture : Option Texture) : Option Sprite :=
  if s.mTexture = texture then some s
  else
    match texture with
    | none => none
    | some tex =>
      let s := { s with mTexture := some tex }
      let s := match tex.mSlice9borders with
        | some borders => s.setSlice9grid (some borders)
        | none => s
      let s := s.setAnchorX tex.registrationPointX
      let s := s.setAnchorY tex.registrationPointY
      let s := { s with mDirty := setDirtyMask s.mDirty DirtyFlag.RENDER_CACHE }
      some { s with mDirty := setDirtyMask s.mDirty DirtyFlag.RENDER }

/-- A finite identity matrix, used as a concrete input. -/
def sampleMatrix : Matrix2D :=
  { a := .fin 1, b := .fin 0, c := .fin 0, d := .fin 1, tx := .fin 0, ty := .fin 0 }

/-- A matrix with an infinite (but not `NaN`) translation component. -/
def infMatrix : Matrix2D :=
  { a := .fin 1, b := .fin 0, c := .fin 0, d := .fin 1, tx := .posInf, ty := .fin 0 }

/-- A matrix with the fractional translation `tx = 1/2`. -/
def halfMatrix : Matrix2D :=
  { a := .fin 1, b := .fin 0, c := .fin 0, d := .fin 1, tx := .fin (1/2), ty := .fin 0 }

/-- A concrete context state. -/
def sampleCtx : CanvasCtx :=
  { globalAlpha := 1
    globalCompositeOperation := "source-over"
    ctxA := .fin 1, ctxB := .fin 0, ctxC := .fin 0, ctxD := .fin 1
    ctxTx := .fin 0, ctxTy := .fin 0
    canvasWidth := 800, canvasHeight := 600
    drawCalls := [] }

/-- A concrete driver: scale factor 1, pixel snapping off. -/
def sampleDriver : CanvasDriver :=
  { mGlobalAlpha := 1
    mGlobalBlendMode := some "source-over"
    mStageScaleFactor := 1
    mSnapToPixels := false
    mClientWidth := 800, mClientHeight := 600
    mTransform := none
    mCtx := sampleCtx }

/-- A concrete driver with pixel snapping on and device scale factor 3. -/
def snapDriver : CanvasDriver :=
  { sampleDriver with mSnapToPixels := true, mStageScaleFactor := 3 }

/-- A concrete texture whose `isValid` is false. -/
def invalidTexture : Texture :=
  { isValid := false
    region := { x := 0, y := 0, width := 4, height := 4 }
    untrimmedRegion := { x := 1, y := 2, width := 4, height := 4 }
    renderWidth := 4, renderHeight := 4
    native := 7
    mSlice9borders := none
    registrationPointX := 0, registrationPointY := 0 }

/-- The same texture with `isValid` true. -/
def validTexture : Texture := { invalidTexture with isValid := true }

/-- A concrete renderer state with alpha 1 and a concrete blend mode. -/
def sampleRenderer : Renderer :=
  { transform := sampleMatrix
    alpha := 1
    blendMode := .NORMAL
    visible := true
    text := ""
    data := none
    multiline := false
    lineHeight := 6/5
    fieldWidth := 0, fieldHeight := 0
    autoSize := true
    boundsWidth := 0, boundsHeight := 0
    dirty := 0 }

/-- A parent renderer already resolved to `MULTIPLY`. -/
def multiplyRenderer : Renderer := { sampleRenderer with blendMode := .MULTIPLY }

/-- A concrete text node with both `RENDER` and `RENDER_CACHE` pending
(`mDirty = 24`), alpha 1 and blend mode `AUTO`. -/
def sampleNode : BitmapTextField :=
  { mData := some 0
    mText := "hi"
    mAutoSize := true
    mMultiline := false
    mLineHeight := 6/5
    mTextBoundsWidth := 0, mTextBoundsHeight := 0
    mFieldWidth := 0, mFieldHeight := 0
    mDirty := 24
    mAlpha := 1
    blendMode := .AUTO
    mVisible := true
    finalTransformation := sampleMatrix }

/-- Variant of `sampleNode` with alpha 1/2. -/
def nodeHalf : BitmapTextField := { sampleNode with mAlpha := 1/2 }

/-- Variant of `sampleNode` with alpha 4/5. -/
def nodeFourFifths : BitmapTextField := { sampleNode with mAlpha := 4/5 }

/-- A measurement oracle returning a fixed size. -/
def sampleMeasure : String → Option Nat → ℚ → ℚ × ℚ := fun _ _ _ => (0, 0)

/-- An `isRenderable` oracle that always fails (e.g. font data still
missing). -/
def neverRenderable : Renderer → Bool := fun _ => false

/-- An `isRenderable` oracle that always succeeds. -/
def alwaysRenderable : Renderer → Bool := fun _ => true

/-- A sample sprite holding a texture. -/
def sampleSprite : Sprite :=
  { mTexture := some validTexture
    mSlice9grid := none
    mAnchorX := 0, mAnchorY := 0
    mDirty := 0 }

/-- A set bit of `2^i` is at position `i`. -/
lemma eq_of_testBit_two_pow {i j : Nat} (h : ((2:Nat)^i).testBit j = true) : j = i := by
  by_contra hne
  rw [Nat.testBit_two_pow_of_ne (Ne.symm hne)] at h
  exact Bool.false_ne_true h

/-- A mask ANDed against a power of two is nonzero exactly when the bit is
set. -/
lemma and_two_pow_ne_zero_iff (d i : Nat) : d &&& 2^i ≠ 0 ↔ d.testBit i = true := by
  rw [Nat.and_two_pow]
  cases h : d.testBit i <;> simp

/-- XOR against a submask of the set bits is exactly AND-NOT of that
submask. -/
lemma xor_eq_ldiff_of_testBit {d m : Nat}
    (h : ∀ i, m.testBit i = true → d.testBit i = true) : d ^^^ m = Nat.ldiff d m := by
  refine Nat.eq_of_testBit_eq fun k => ?_
  rw [Nat.testBit_xor, Nat.testBit_ldiff]
  cases hm : m.testBit k
  · simp
  · simp [h k hm]

/-- AND-NOT with the empty mask changes nothing. -/
lemma ldiff_zero_right (d : Nat) : Nat.ldiff d 0 = d := by
  refine Nat.eq_of_testBit_eq fun k => ?_
  rw [Nat.testBit_ldiff, Nat.zero_testBit]
  simp

/-- Two successive AND-NOT clears equal one clear of the union. -/
lemma ldiff_ldiff_or (d a b : Nat) : Nat.ldiff (Nat.ldiff d a) b = Nat.ldiff d (a ||| b) := by
  refine Nat.eq_of_testBit_eq fun k => ?_
  rw [Nat.testBit_ldiff, Nat.testBit_ldiff, Nat.testBit_ldiff, Nat.testBit_or]
  cases d.testBit k <;> cases a.testBit k <;> cases b.testBit k <;> rfl

/-- A submask of the set bits of `d` ANDed with `d` is itself. -/
lemma and_eq_self_of_testBit {d m : Nat}
    (h : ∀ i, m.testBit i = true → d.testBit i = true) : m &&& d = m := by
  refine Nat.eq_of_testBit_eq fun k => ?_
  rw [Nat.testBit_and]
  cases hm : m.testBit k
  · rfl
  · simp [h k hm]

/-- An AND-NOT result ANDed with the original mask is itself (clearing
never turns a bit on). -/
lemma ldiff_and_self (d s : Nat) : Nat.ldiff d s &&& d = Nat.ldiff d s := by
  refine Nat.eq_of_testBit_eq fun k => ?_
  rw [Nat.testBit_and, Nat.testBit_ldiff]
  cases d.testBit k <;> cases s.testBit k <;> rfl

/-- XOR against a disjoint power of two leaves another bit unchanged. -/
lemma testBit_xor_two_pow_other (d : Nat) {i j : Nat} (h : i ≠ j) :
    (d ^^^ 2^i).testBit j = d.testBit j := by
  rw [Nat.testBit_xor, Nat.testBit_two_pow_of_ne h]
  cases d.testBit j <;> rfl

lemma renderFlag_eq : DirtyFlag.RENDER = 2^3 := rfl

lemma renderCacheFlag_eq : DirtyFlag.RENDER_CACHE = 2^4 := rfl

/-- Re-measuring leaves the dirty mask untouched. -/
lemma measureStep_mDirty (measure : String → Option Nat → ℚ → ℚ × ℚ)
    (node : BitmapTextField) : (node.measureStep measure).mDirty = node.mDirty := by
  unfold BitmapTextField.measureStep
  split <;> rfl

/-- The node returned by `onGetLocalBounds` is the re-measured node. -/
lemma onGetLocalBounds_fst (measure : String → Option Nat → ℚ → ℚ × ℚ)
    (node : BitmapTextField) :
    (node.onGetLocalBounds measure).1 = node.measureStep measure := by
  unfold BitmapTextField.onGetLocalBounds
  by_cases h : (node.measureStep measure).mAutoSize = false <;> simp [h]

/-- The node `onGetLocalBounds` returns keeps the dirty mask untouched. -/
lemma onGetLocalBounds_mDirty (measure : String → Option Nat → ℚ → ℚ × ℚ)
    (node : BitmapTextField) : (node.onGetLocalBounds measure).1.mDirty = node.mDirty := by
  rw [onGetLocalBounds_fst, measureStep_mDirty]

/-- The cache rebuild leaves the dirty mask untouched. -/
lemma rebuildCache_mDirty (measure : String → Option Nat → ℚ → ℚ × ℚ)
    (node : BitmapTextField) (renderer : Renderer) :
    (rebuildCache measure node renderer).1.mDirty = node.mDirty := by
  unfold rebuildCache
  exact onGetLocalBounds_mDirty measure node

/-- The dirty mask after the `RENDER` branch. -/
lemma renderSyncStep_mDirty (node : BitmapTextField) (parentRenderer renderer : Renderer) :
    (renderSyncStep node parentRenderer renderer).1.mDirty =
      if node.mDirty &&& DirtyFlag.RENDER ≠ 0 then node.mDirty ^^^ DirtyFlag.RENDER
      else node.mDirty := by
  unfold renderSyncStep
  split <;> rfl

/-- The `RENDER` branch does not change the node fields other than the
dirty mask; in particular the fields the rebuild reads. -/
lemma renderSyncStep_fields (node : BitmapTextField) (parentRenderer renderer : Renderer) :
    (renderSyncStep node parentRenderer renderer).1 =
      { node with mDirty := (renderSyncStep node parentRenderer renderer).1.mDirty } := by
  unfold renderSyncStep
  split <;> rfl

/-- The dirty mask after the `RENDER_CACHE` branch. -/
lemma cacheSyncStep_mDirty (isRenderable : Renderer → Bool)
    (measure : String → Option Nat → ℚ → ℚ × ℚ)
    (node : BitmapTextField) (renderer : Renderer) :
    (cacheSyncStep isRenderable measure node renderer).1.mDirty =
      if node.mDirty &&& DirtyFlag.RENDER_CACHE ≠ 0 then
        (if isRenderable (rebuildCache measure node renderer).2 then
          node.mDirty ^^^ DirtyFlag.RENDER_CACHE
        else node.mDirty)
      else node.mDirty := by
  by_cases hset : node.mDirty &&& DirtyFlag.RENDER_CACHE ≠ 0
  · cases hisr : isRenderable (rebuildCache measure node renderer).2 <;>
      simp [cacheSyncStep, hset, hisr, rebuildCache_mDirty]
  · simp [cacheSyncStep, hset]

/-- On the node side `onRender` is the composition of the two branches. -/
lemma onRender_fst (isRenderable : Renderer → Bool)
    (measure : String → Option Nat → ℚ → ℚ × ℚ)
    (node : BitmapTextField) (renderer parentRenderer : Renderer) :
    (BitmapTextField.onRender isRenderable measure node renderer parentRenderer).1 =
      (cacheSyncStep isRenderable measure
        (renderSyncStep node parentRenderer renderer).1
        (renderSyncStep node parentRenderer renderer).2).1 := rfl

/-- XOR against a disjoint power of two leaves an AND against another
power of two unchanged. -/
lemma and_two_pow_xor_other (d : Nat) {i j : Nat} (h : i ≠ j) :
    (d ^^^ 2^i) &&& 2^j = d &&& 2^j := by
  rw [Nat.and_two_pow, Nat.and_two_pow, testBit_xor_two_pow_other d h]

/-- XOR against a set power of two clears exactly that bit. -/
lemma and_two_pow_xor_self {d : Nat} {i : Nat} (h : d.testBit i = true) :
    (d ^^^ 2^i) &&& 2^i = 0 := by
  rw [Nat.and_two_pow, Nat.testBit_xor, h, Nat.testBit_two_pow_self]
  simp

/-- A power of two with its bit set in `d` is a submask of `d`. -/
lemma two_pow_subset {d : Nat} {i : Nat} (h : d.testBit i = true) :
    ∀ j, ((2:Nat)^i).testBit j = true → d.testBit j = true := by
  intro j hj
  rw [eq_of_testBit_two_pow hj]
  exact h

/-- The union of two submasks is a submask. -/
lemma or_subset {d a b : Nat}
    (ha : ∀ j, a.testBit j = true → d.testBit j = true)
    (hb : ∀ j, b.testBit j = true → d.testBit j = true) :
    ∀ j, (a ||| b).testBit j = true → d.testBit j = true := by
  intro j hj
  rw [Nat.testBit_or] at hj
  rcases Bool.or_eq_true_iff.mp hj with h | h
  · exact ha j h
  · exact hb j h

/-- The zero mask is a submask of anything. -/
lemma zero_subset (d : Nat) : ∀ j, (0:Nat).testBit j = true → d.testBit j = true := by
  intro j hj
  rw [Nat.zero_testBit] at hj
  exact absurd hj (by simp)

/-- The cache rebuild does not touch the renderer's alpha. -/
lemma rebuildCache_alpha (measure : String → Option Nat → ℚ → ℚ × ℚ)
    (node : BitmapTextField) (renderer : Renderer) :
    (rebuildCache measure node renderer).2.alpha = renderer.alpha := rfl

/-- The cache rebuild does not touch the renderer's blend mode. -/
lemma rebuildCache_blendMode (measure : String → Option Nat → ℚ → ℚ × ℚ)
    (node : BitmapTextField) (renderer : Renderer) :
    (rebuildCache measure node renderer).2.blendMode = renderer.blendMode := rfl

/-- The renderer returned by the `RENDER` branch. -/
lemma renderSyncStep_snd (node : BitmapTextField) (parentRenderer renderer : Renderer) :
    (renderSyncStep node parentRenderer renderer).2 =
      if node.mDirty &&& DirtyFlag.RENDER ≠ 0 then
        { renderer with
            transform := node.finalTransformation
            alpha := node.mAlpha * parentRenderer.alpha
            blendMode := if node.blendMode = BlendMode.AUTO then parentRenderer.blendMode else node.blendMode
            visible := node.mVisible }
      else renderer := by
  unfold renderSyncStep
  split <;> rfl

/-- The renderer returned by the `RENDER_CACHE` branch. -/
lemma cacheSyncStep_snd (isRenderable : Renderer → Bool)
    (measure : String → Option Nat → ℚ → ℚ × ℚ)
    (node : BitmapTextField) (renderer : Renderer) :
    (cacheSyncStep isRenderable measure node renderer).2 =
      if node.mDirty &&& DirtyFlag.RENDER_CACHE ≠ 0 then
        (rebuildCache measure node renderer).2
      else renderer := by
  by_cases hset : node.mDirty &&& DirtyFlag.RENDER_CACHE ≠ 0
  · cases hisr : isRenderable (rebuildCache measure node renderer).2 <;>
      simp [cacheSyncStep, hset, hisr]
  · simp [cacheSyncStep, hset]

/-- The renderer returned by `onRender` is the cache-step renderer with
the dirty snapshot stored. -/
lemma onRender_snd (isRenderable : Renderer → Bool)
    (measure : String → Option Nat → ℚ → ℚ × ℚ)
    (node : BitmapTextField) (renderer parentRenderer : Renderer) :
    (BitmapTextField.onRender isRenderable measure node renderer parentRenderer).2 =
      { (cacheSyncStep isRenderable measure
          (renderSyncStep node parentRenderer renderer).1
          (renderSyncStep node parentRenderer renderer).2).2 with dirty := node.mDirty } := rfl

/-- The renderer's alpha after `onRender`, when the `RENDER` bit is
pending, is the node's alpha times the parent renderer's alpha. -/
lemma onRender_renderer_alpha (isRenderable : Renderer → Bool)
    (measure : String → Option Nat → ℚ → ℚ × ℚ)
    (node : BitmapTextField) (renderer parentRenderer : Renderer)
    (h : node.mDirty &&& DirtyFlag.RENDER ≠ 0) :
    (BitmapTextField.onRender isRenderable measure node renderer parentRenderer).2.alpha
      = node.mAlpha * parentRenderer.alpha := by
  by_cases h16 : (renderSyncStep node parentRenderer renderer).1.mDirty &&& DirtyFlag.RENDER_CACHE ≠ 0 <;>
    simp [onRender_snd, cacheSyncStep_snd, renderSyncStep_snd, rebuildCache_alpha, h, h16]

/-- The renderer's blend mode after `onRender`, when the `RENDER` bit is
pending: `AUTO` inherits the parent's resolved blend mode, any other mode
is the node's own. -/
lemma onRender_renderer_blendMode (isRenderable : Renderer → Bool)
    (measure : String → Option Nat → ℚ → ℚ × ℚ)
    (node : BitmapTextField) (renderer parentRenderer : Renderer)
    (h : node.mDirty &&& DirtyFlag.RENDER ≠ 0) :
    (BitmapTextField.onRender isRenderable measure node renderer parentRenderer).2.blendMode
      = (if node.blendMode = BlendMode.AUTO then parentRenderer.blendMode else node.blendMode) := by
  by_cases h16 : (renderSyncStep node parentRenderer renderer).1.mDirty &&& DirtyFlag.RENDER_CACHE ≠ 0 <;>
    simp [onRender_snd, cacheSyncStep_snd, renderSyncStep_snd, rebuildCache_blendMode, h, h16]

/-- A texture with the `untrimmedRegion` origin shifted by `(ox, oy)`. -/
def offsetTexture (t : Texture) (ox oy : ℚ) : Texture :=
  { t with untrimmedRegion :=
      { t.untrimmedRegion with
          x := t.untrimmedRegion.x + ox
          y := t.untrimmedRegion.y + oy } }

/-- C3: for every texture whose `isValid` is false, both `drawTexture` and
`drawTextureWithOffset` issue zero drawing calls, raise no error (both
are total functions of the embedding), and leave the backend state
unchanged. -/
theorem drawTexture_invalid_is_noop (drv : CanvasDriver) (texture : Texture) (ox oy : ℚ)
    (h : texture.isValid = false) :
    drv.drawTexture texture = drv ∧
    drv.drawTextureWithOffset texture ox oy = drv ∧
    (drv.drawTexture texture).mCtx.drawCalls = drv.mCtx.drawCalls ∧
    (drv.drawTextureWithOffset texture ox oy).mCtx.drawCalls = drv.mCtx.drawCalls := by
  refine ⟨?_, ?_, ?_, ?_⟩ <;>
    simp [CanvasDriver.drawTexture, CanvasDriver.drawTextureWithOffset, h]

/-- Witness for C3 at a concrete invalid texture and driver. -/
theorem drawTexture_invalid_is_noop_witness :
    invalidTexture.isValid = false ∧
    (sampleDriver.drawTexture invalidTexture = sampleDriver ∧
     sampleDriver.drawTextureWithOffset invalidTexture 10 20 = sampleDriver ∧
     (sampleDriver.drawTexture invalidTexture).mCtx.drawCalls = sampleDriver.mCtx.drawCalls ∧
     (sampleDriver.drawTextureWithOffset invalidTexture 10 20).mCtx.drawCalls = sampleDriver.mCtx.drawCalls) :=
  ⟨rfl, drawTexture_invalid_is_noop sampleDriver invalidTexture 10 20 rfl⟩

/-- C9: for every valid texture, drawing it with offset `(ox, oy)` is the
same backend transition as drawing, without offset, the texture whose
`untrimmedRegion` origin is shifted by `(ox, oy)`: in particular the
emitted call has the same source rectangle, the same destination size,
and the same destination origin. -/
theorem drawTextureWithOffset_eq_shifted (drv : CanvasDriver) (t : Texture) (ox oy : ℚ)
    (h : t.isValid = true) :
    drv.drawTextureWithOffset t ox oy = drv.drawTexture (offsetTexture t ox oy) := by
  have hx : (ox + t.untrimmedRegion.x) * drv.mStageScaleFactor
      = (t.untrimmedRegion.x + ox) * drv.mStageScaleFactor := by ring
  have hy : (oy + t.untrimmedRegion.y) * drv.mStageScaleFactor
      = (t.untrimmedRegion.y + oy) * drv.mStageScaleFactor := by ring
  simp [CanvasDriver.drawTextureWithOffset, CanvasDriver.drawTexture, offsetTexture, h, hx, hy]

/-- Witness for C9 at a concrete valid texture and offsets `(10, 20)`. -/
theorem drawTextureWithOffset_eq_shifted_witness :
    validTexture.isValid = true ∧
    sampleDriver.drawTextureWithOffset validTexture 10 20
      = sampleDriver.drawTexture (offsetTexture validTexture 10 20) :=
  ⟨rfl, drawTextureWithOffset_eq_shifted sampleDriver validTexture 10 20 rfl⟩

/-- C4: after a resize the shadow alpha is the sentinel `-1` (distinct
from every valid alpha `0 ≤ x ≤ 1`) and the shadow blend mode is the
sentinel `none` (distinct from every translated identifier `some s`), so
the first `globalAlpha = x` and `globalBlendMode = y` after the resize are
applied to the context for every valid `x` and every `y ≠ AUTO` — in
particular when they equal the values applied just before the resize. -/
theorem resize_resets_shadow_state (drv : CanvasDriver) (w h : ℚ) (x : ℚ) (bm : BlendMode)
    (hx0 : 0 ≤ x) (hx1 : x ≤ 1) (hbm : bm ≠ BlendMode.AUTO) :
    (drv.onResize w h).mGlobalAlpha = -1 ∧
    (drv.onResize w h).mGlobalBlendMode = none ∧
    x ≠ (drv.onResize w h).mGlobalAlpha ∧
    ((drv.onResize w h).setGlobalAlpha x).mCtx.globalAlpha = x ∧
    ((drv.onResize w h).setGlobalAlpha x).mGlobalAlpha = x ∧
    ((drv.onResize w h).setGlobalBlendMode bm).mCtx.globalCompositeOperation = CanvasBlendMode bm ∧
    ((drv.onResize w h).setGlobalBlendMode bm).mGlobalBlendMode = some (CanvasBlendMode bm) := by
  have hne : x ≠ (-1 : ℚ) := by
    intro he
    rw [he] at hx0
    norm_num at hx0
  refine ⟨rfl, rfl, ?_, ?_, ?_, ?_, ?_⟩
  · simpa [CanvasDriver.onResize] using hne
  · simp [CanvasDriver.setGlobalAlpha, CanvasDriver.onResize, hne]
  · simp [CanvasDriver.setGlobalAlpha, CanvasDriver.onResize, hne]
  · simp [CanvasDriver.setGlobalBlendMode, CanvasDriver.onResize, hbm]
  · simp [CanvasDriver.setGlobalBlendMode, CanvasDriver.onResize, hbm]

/-- Witness for C4: resize `sampleDriver` to 400×300, then write alpha
`1/2` and blend mode `MULTIPLY`. -/
theorem resize_resets_shadow_state_witness :
    (0 : ℚ) ≤ 1/2 ∧ (1/2 : ℚ) ≤ 1 ∧ BlendMode.MULTIPLY ≠ BlendMode.AUTO ∧
    ((sampleDriver.onResize 400 300).mGlobalAlpha = -1 ∧
     (sampleDriver.onResize 400 300).mGlobalBlendMode = none ∧
     (1/2 : ℚ) ≠ (sampleDriver.onResize 400 300).mGlobalAlpha ∧
     ((sampleDriver.onResize 400 300).setGlobalAlpha (1/2)).mCtx.globalAlpha = 1/2 ∧
     ((sampleDriver.onResize 400 300).setGlobalAlpha (1/2)).mGlobalAlpha = 1/2 ∧
     ((sampleDriver.onResize 400 300).setGlobalBlendMode BlendMode.MULTIPLY).mCtx.globalCompositeOperation
        = CanvasBlendMode BlendMode.MULTIPLY ∧
     ((sampleDriver.onResize 400 300).setGlobalBlendMode BlendMode.MULTIPLY).mGlobalBlendMode
        = some (CanvasBlendMode BlendMode.MULTIPLY)) :=
  ⟨by norm_num, by norm_num, by decide,
   resize_resets_shadow_state sampleDriver 400 300 (1/2) BlendMode.MULTIPLY
     (by norm_num) (by norm_num) (by decide)⟩

/-- C10: assigning a node property its current value through the public
setters is a complete no-op: `Sprite.texture` with the texture already
held, and `BitmapTextField`'s `text`, `fieldWidth`, `fieldHeight` and
`autoSize` with their current values, leave every node field — including
the dirty mask, so no `RENDER` or `RENDER_CACHE` bit — unchanged. -/
theorem same_value_setters_are_noops (s : Sprite) (node : BitmapTextField) :
    s.setTexture s.mTexture = some s ∧
    node.setText node.mText = node ∧
    node.setFieldWidth node.mFieldWidth = node ∧
    node.setFieldHeight node.mFieldHeight = node ∧
    node.setAutoSize node.mAutoSize = node := by
  refine ⟨?_, ?_, ?_, ?_, ?_⟩
  · simp [Sprite.setTexture]
  · simp [BitmapTextField.setText]
  · simp [BitmapTextField.setFieldWidth]
  · simp [BitmapTextField.setFieldHeight]
  · simp [BitmapTextField.setAutoSize]

/-- C7: during `RENDER` synchronization a node's renderer alpha is set to
`node.alpha * parentRenderer.alpha`; chaining three synchronizations in
pre-order therefore yields the product of the chain's alphas (times the
stage alpha).  The concrete `0.5 × 0.8 × 1.0 = 0.4` instance is checked in
the witness. -/
theorem renderer_alpha_inherited_multiplicatively
    (isR1 isR2 isR3 : Renderer → Bool)
    (meas1 meas2 meas3 : String → Option Nat → ℚ → ℚ × ℚ)
    (nodeRoot nodeA nodeB : BitmapTextField)
    (stageRenderer rRoot rA rB : Renderer)
    (h1 : nodeRoot.mDirty &&& DirtyFlag.RENDER ≠ 0)
    (h2 : nodeA.mDirty &&& DirtyFlag.RENDER ≠ 0)
    (h3 : nodeB.mDirty &&& DirtyFlag.RENDER ≠ 0) :
    (BitmapTextField.onRender isR1 meas1 nodeRoot rRoot stageRenderer).2.alpha
        = nodeRoot.mAlpha * stageRenderer.alpha ∧
    (BitmapTextField.onRender isR3 meas3 nodeB rB
        (BitmapTextField.onRender isR2 meas2 nodeA rA
          (BitmapTextField.onRender isR1 meas1 nodeRoot rRoot stageRenderer).2).2).2.alpha
      = nodeB.mAlpha * (nodeA.mAlpha * (nodeRoot.mAlpha * stageRenderer.alpha)) := by
  constructor
  · exact onRender_renderer_alpha isR1 meas1 nodeRoot rRoot stageRenderer h1
  · rw [onRender_renderer_alpha isR3 meas3 nodeB rB _ h3,
        onRender_renderer_alpha isR2 meas2 nodeA rA _ h2,
        onRender_renderer_alpha isR1 meas1 nodeRoot rRoot stageRenderer h1]

/-- Witness for C7: chain with alphas `1/2`, `4/5`, `1` under a stage
renderer of alpha `1` gives effective renderer alpha `2/5 = 0.4`. -/
theorem renderer_alpha_inherited_multiplicatively_witness :
    nodeHalf.mDirty &&& DirtyFlag.RENDER ≠ 0 ∧
    nodeFourFifths.mDirty &&& DirtyFlag.RENDER ≠ 0 ∧
    sampleNode.mDirty &&& DirtyFlag.RENDER ≠ 0 ∧
    (BitmapTextField.onRender (fun _ => true) sampleMeasure sampleNode sampleRenderer
        (BitmapTextField.onRender (fun _ => true) sampleMeasure nodeFourFifths sampleRenderer
          (BitmapTextField.onRender (fun _ => true) sampleMeasure nodeHalf sampleRenderer sampleRenderer).2).2).2.alpha
      = 2/5 := by
  refine ⟨by decide, by decide, by decide, ?_⟩
  have h := (renderer_alpha_inherited_multiplicatively
      (fun _ => true) (fun _ => true) (fun _ => true)
      sampleMeasure sampleMeasure sampleMeasure
      nodeHalf nodeFourFifths sampleNode
      sampleRenderer sampleRenderer sampleRenderer sampleRenderer
      (by decide) (by decide) (by decide)).2
  rw [h]
  norm_num [sampleNode, nodeHalf, nodeFourFifths, sampleRenderer]

/-- C8: during `RENDER` synchronization a node whose blend mode is `AUTO`
receives the parent renderer's resolved blend mode, and a node with any
non-`AUTO` blend mode receives its own value. -/
theorem renderer_blendMode_resolution
    (isR : Renderer → Bool) (meas : String → Option Nat → ℚ → ℚ × ℚ)
    (node : BitmapTextField) (renderer parentRenderer : Renderer)
    (h : node.mDirty &&& DirtyFlag.RENDER ≠ 0) :
    (BitmapTextField.onRender isR meas node renderer parentRenderer).2.blendMode
      = (if node.blendMode = BlendMode.AUTO then parentRenderer.blendMode else node.blendMode) :=
  onRender_renderer_blendMode isR meas node renderer parentRenderer h

/-- Witness for C8: an `AUTO` node under a parent resolved to `MULTIPLY`
yields renderer blend mode `MULTIPLY`. -/
theorem renderer_blendMode_resolution_witness :
    sampleNode.mDirty &&& DirtyFlag.RENDER ≠ 0 ∧
    sampleNode.blendMode = BlendMode.AUTO ∧
    multiplyRenderer.blendMode = BlendMode.MULTIPLY ∧
    (BitmapTextField.onRender (fun _ => true) sampleMeasure sampleNode sampleRenderer multiplyRenderer).2.blendMode
      = BlendMode.MULTIPLY := by
  refine ⟨by decide, rfl, rfl, ?_⟩
  have h := renderer_blendMode_resolution (fun _ => true) sampleMeasure
      sampleNode sampleRenderer multiplyRenderer (by decide)
  rw [h]
  decide

/-- C5 counterexample: the transform `infMatrix` has the non-finite
component `tx = +∞`, yet `setTransform` trips no assertion (the source
only checks `isNaN`, and `isNaN(Infinity)` is false) and applies the
infinite translation to the context. -/
theorem setTransform_infinite_component_applied :
    JsNum.isFinite infMatrix.tx = false ∧
    CanvasDriver.setTransform sampleDriver infMatrix ≠ none ∧
    (CanvasDriver.setTransform sampleDriver infMatrix).map (fun d => d.mCtx.ctxTx)
      = some JsNum.posInf := by
  refine ⟨rfl, ?_, ?_⟩
  · simp [CanvasDriver.setTransform, infMatrix, JsNum.isNaN, sampleDriver, sampleCtx]
  · norm_num [CanvasDriver.setTransform, infMatrix, JsNum.isNaN, JsNum.mulQ,
      sampleDriver, sampleCtx]

/-- C5 (amended): `setTransform` fails fast via assertion exactly when
some component is `NaN`, and then applies nothing; a component that is
infinite but not `NaN` passes the assertions and the transform is applied
to the context. -/
theorem setTransform_none_iff_nan_component (drv : CanvasDriver) (m : Matrix2D) :
    (CanvasDriver.setTransform drv m = none
      ↔ (m.a.isNaN = true ∨ m.b.isNaN = true ∨ m.c.isNaN = true ∨
         m.d.isNaN = true ∨ m.tx.isNaN = true ∨ m.ty.isNaN = true)) := by
  by_cases h : m.a.isNaN = true ∨ m.b.isNaN = true ∨ m.c.isNaN = true ∨
      m.d.isNaN = true ∨ m.tx.isNaN = true ∨ m.ty.isNaN = true
  · unfold CanvasDriver.setTransform
    rw [if_pos (by simp only [Bool.or_eq_true]; tauto)]
    exact iff_of_true rfl h
  · unfold CanvasDriver.setTransform
    rw [if_neg (by simp only [Bool.or_eq_true]; tauto)]
    refine iff_of_false ?_ h
    cases hsnap : drv.mSnapToPixels <;> simp [hsnap]

/-- C6 (amended): when the pixel-snapping flag is set, `setTransform`
applies the translation `ToInt32(tx * scale)` — truncation toward zero
performed AFTER multiplying by the device scale factor, not an integer
rounding of `tx` before scaling; with the flag off the translations are
the continuous `tx * scale`, `ty * scale`; in both cases the `a, b, c, d`
components pass through unaffected by the flag. -/
theorem setTransform_translation_policy (drv : CanvasDriver) (m : Matrix2D)
    (ha : m.a.isNaN = false) (hb : m.b.isNaN = false) (hc : m.c.isNaN = false)
    (hd : m.d.isNaN = false) (htx : m.tx.isNaN = false) (hty : m.ty.isNaN = false) :
    CanvasDriver.setTransform drv m = some { drv with
      mTransform := some m
      mCtx := { drv.mCtx with
        ctxA := m.a, ctxB := m.b, ctxC := m.c, ctxD := m.d
        ctxTx := if drv.mSnapToPixels = true
                 then JsNum.fin ((JsNum.mulQ m.tx drv.mStageScaleFactor).toInt32 : ℚ)
                 else JsNum.mulQ m.tx drv.mStageScaleFactor
        ctxTy := if drv.mSnapToPixels = true
                 then JsNum.fin ((JsNum.mulQ m.ty drv.mStageScaleFactor).toInt32 : ℚ)
                 else JsNum.mulQ m.ty drv.mStageScaleFactor } } := by
  unfold CanvasDriver.setTransform
  rw [if_neg (by simp [ha, hb, hc, hd, htx, hty])]
  cases hsnap : drv.mSnapToPixels <;> simp [hsnap]

/-- Witness for C6 at the concrete snapping driver and identity matrix. -/
theorem setTransform_translation_policy_witness :
    sampleMatrix.a.isNaN = false ∧ sampleMatrix.b.isNaN = false ∧
    sampleMatrix.c.isNaN = false ∧ sampleMatrix.d.isNaN = false ∧
    sampleMatrix.tx.isNaN = false ∧ sampleMatrix.ty.isNaN = false ∧
    CanvasDriver.setTransform snapDriver sampleMatrix = some { snapDriver with
      mTransform := some sampleMatrix
      mCtx := { snapDriver.mCtx with
        ctxA := sampleMatrix.a, ctxB := sampleMatrix.b
        ctxC := sampleMatrix.c, ctxD := sampleMatrix.d
        ctxTx := if snapDriver.mSnapToPixels = true
                 then JsNum.fin ((JsNum.mulQ sampleMatrix.tx snapDriver.mStageScaleFactor).toInt32 : ℚ)
                 else JsNum.mulQ sampleMatrix.tx snapDriver.mStageScaleFactor
        ctxTy := if snapDriver.mSnapToPixels = true
                 then JsNum.fin ((JsNum.mulQ sampleMatrix.ty snapDriver.mStageScaleFactor).toInt32 : ℚ)
                 else JsNum.mulQ sampleMatrix.ty snapDriver.mStageScaleFactor } } :=
  ⟨rfl, rfl, rfl, rfl, rfl, rfl,
   setTransform_translation_policy snapDriver sampleMatrix rfl rfl rfl rfl rfl rfl⟩

/-- C6 counterexample: with snapping on and device scale factor 3, the
translation `tx = 1/2` is applied as `ToInt32(1/2 * 3) = 1`.  Snapping
`tx` to an integer BEFORE scaling, as the claim states, would give
`n * 3` for some integer `n` — but `3 ∤ 1`, so the applied value matches
no integer rounding of `tx` multiplied by the scale factor. -/
theorem setTransform_snap_not_before_scale :
    snapDriver.mSnapToPixels = true ∧
    snapDriver.mStageScaleFactor = 3 ∧
    halfMatrix.tx = JsNum.fin (1/2) ∧
    (CanvasDriver.setTransform snapDriver halfMatrix).map (fun d => d.mCtx.ctxTx)
      = some (JsNum.fin 1) ∧
    ¬ ((3:ℤ) ∣ 1) := by
  refine ⟨rfl, rfl, rfl, ?_, by norm_num⟩
  have hfloor : (⌊(3:ℚ)/2⌋ : ℤ) = 1 := by
    rw [Int.floor_eq_iff] <;> norm_num
  have htrunc : ratTrunc ((3:ℚ)/2) = 1 := by
    rw [ratTrunc, if_pos (by norm_num), hfloor]
  have hti : JsNum.toInt32 (JsNum.fin ((3:ℚ)/2)) = 1 := by
    show int32Wrap (ratTrunc ((3:ℚ)/2)) = 1
    rw [htrunc]
    decide
  have key : ((JsNum.fin (2⁻¹ : ℚ)).mulQ 3).toInt32 = 1 := by
    have hmul : (JsNum.fin (2⁻¹ : ℚ)).mulQ 3 = JsNum.fin ((3:ℚ)/2) := by
      norm_num [JsNum.mulQ]
    rw [hmul, hti]
  simp [CanvasDriver.setTransform, snapDriver, sampleDriver, sampleCtx, halfMatrix,
    JsNum.isNaN, key]

/-- The `RENDER` branch preserves the `RENDER_CACHE` bit. -/
lemma renderSyncStep_cacheBit (node : BitmapTextField) (parentRenderer renderer : Renderer) :
    (renderSyncStep node parentRenderer renderer).1.mDirty &&& DirtyFlag.RENDER_CACHE
      = node.mDirty &&& DirtyFlag.RENDER_CACHE := by
  rw [renderSyncStep_mDirty]
  by_cases h8 : node.mDirty &&& DirtyFlag.RENDER ≠ 0
  · rw [if_pos h8, renderFlag_eq, renderCacheFlag_eq]
    exact and_two_pow_xor_other _ (by norm_num)
  · rw [if_neg h8]

/-- After the `RENDER` branch the `RENDER` bit is always clear. -/
lemma renderSyncStep_renderBit_zero (node : BitmapTextField) (parentRenderer renderer : Renderer) :
    (renderSyncStep node parentRenderer renderer).1.mDirty &&& DirtyFlag.RENDER = 0 := by
  rw [renderSyncStep_mDirty]
  by_cases h8 : node.mDirty &&& DirtyFlag.RENDER ≠ 0
  · rw [if_pos h8, renderFlag_eq]
    refine and_two_pow_xor_self ?_
    rw [← and_two_pow_ne_zero_iff]
    rwa [renderFlag_eq] at h8
  · rw [if_neg h8]
    exact not_ne_iff.mp h8

/-- The `RENDER_CACHE` branch preserves the `RENDER` bit. -/
lemma cacheSyncStep_renderBit (isRenderable : Renderer → Bool)
    (measure : String → Option Nat → ℚ → ℚ × ℚ)
    (node : BitmapTextField) (renderer : Renderer) :
    (cacheSyncStep isRenderable measure node renderer).1.mDirty &&& DirtyFlag.RENDER
      = node.mDirty &&& DirtyFlag.RENDER := by
  rw [cacheSyncStep_mDirty]
  by_cases hc : node.mDirty &&& DirtyFlag.RENDER_CACHE ≠ 0
  · rw [if_pos hc]
    cases hisr : isRenderable (rebuildCache measure node renderer).2
    · rw [if_neg (by simp [hisr])]
    · rw [if_pos (by simp [hisr]), renderCacheFlag_eq, renderFlag_eq]
      exact and_two_pow_xor_other _ (by norm_num)
  · rw [if_neg hc]

/-- After `onRender` the `RENDER` bit is always clear. -/
lemma onRender_renderBit_zero (isRenderable : Renderer → Bool)
    (measure : String → Option Nat → ℚ → ℚ × ℚ)
    (node : BitmapTextField) (renderer parentRenderer : Renderer) :
    (BitmapTextField.onRender isRenderable measure node renderer parentRenderer).1.mDirty
      &&& DirtyFlag.RENDER = 0 := by
  rw [onRender_fst, cacheSyncStep_renderBit, renderSyncStep_renderBit_zero]

/-- The `RENDER_CACHE` bit after `onRender` when it was pending: clear
exactly when the rebuilt renderer was renderable. -/
lemma onRender_cacheBit (isRenderable : Renderer → Bool)
    (measure : String → Option Nat → ℚ → ℚ × ℚ)
    (node : BitmapTextField) (renderer parentRenderer : Renderer)
    (hc : node.mDirty &&& DirtyFlag.RENDER_CACHE ≠ 0) :
    ((BitmapTextField.onRender isRenderable measure node renderer parentRenderer).1.mDirty
        &&& DirtyFlag.RENDER_CACHE = 0
      ↔ isRenderable (rebuildCache measure
          (renderSyncStep node parentRenderer renderer).1
          (renderSyncStep node parentRenderer renderer).2).2 = true) := by
  have hcn1 : (renderSyncStep node parentRenderer renderer).1.mDirty &&& DirtyFlag.RENDER_CACHE ≠ 0 := by
    rw [renderSyncStep_cacheBit]
    exact hc
  rw [onRender_fst, cacheSyncStep_mDirty, if_pos hcn1]
  cases hisr : isRenderable (rebuildCache measure
      (renderSyncStep node parentRenderer renderer).1
      (renderSyncStep node parentRenderer renderer).2).2
  · rw [if_neg (by simp [hisr])]
    simp [hcn1]
  · rw [if_pos (by simp [hisr])]
    have hb4 : (renderSyncStep node parentRenderer renderer).1.mDirty.testBit 4 = true := by
      rw [← and_two_pow_ne_zero_iff]
      rwa [renderCacheFlag_eq] at hcn1
    rw [renderCacheFlag_eq]
    exact iff_of_true (and_two_pow_xor_self hb4) rfl

/-- C1: when the `RENDER_CACHE` bit is pending, `onRender` clears it
exactly when the rebuilt renderer's `isRenderable` is true; when the
rebuild is not renderable the bit remains set after `onRender` returns,
and a later `onRender` clears it exactly when either rebuild succeeded —
in particular a later rebuild with `isRenderable = true` clears it. -/
theorem render_cache_cleared_iff_renderable
    (isR1 isR2 : Renderer → Bool)
    (meas1 meas2 : String → Option Nat → ℚ → ℚ × ℚ)
    (node : BitmapTextField) (r1 pr1 r2 pr2 : Renderer)
    (hc : node.mDirty &&& DirtyFlag.RENDER_CACHE ≠ 0) :
    ((BitmapTextField.onRender isR1 meas1 node r1 pr1).1.mDirty &&& DirtyFlag.RENDER_CACHE = 0
      ↔ isR1 (rebuildCache meas1 (renderSyncStep node pr1 r1).1 (renderSyncStep node pr1 r1).2).2 = true)
    ∧
    ((BitmapTextField.onRender isR2 meas2
        (BitmapTextField.onRender isR1 meas1 node r1 pr1).1 r2 pr2).1.mDirty
        &&& DirtyFlag.RENDER_CACHE = 0
      ↔ (isR1 (rebuildCache meas1 (renderSyncStep node pr1 r1).1 (renderSyncStep node pr1 r1).2).2 = true
          ∨ isR2 (rebuildCache meas2
              (renderSyncStep (BitmapTextField.onRender isR1 meas1 node r1 pr1).1 pr2 r2).1
              (renderSyncStep (BitmapTextField.onRender isR1 meas1 node r1 pr1).1 pr2 r2).2).2 = true)) := by
  have hiff1 := onRender_cacheBit isR1 meas1 node r1 pr1 hc
  refine ⟨hiff1, ?_⟩
  cases hisr1 : isR1 (rebuildCache meas1 (renderSyncStep node pr1 r1).1 (renderSyncStep node pr1 r1).2).2
  · -- first rebuild failed: the bit is still pending going into the second call
    have hnz : (BitmapTextField.onRender isR1 meas1 node r1 pr1).1.mDirty
        &&& DirtyFlag.RENDER_CACHE ≠ 0 := by
      intro hz
      have htrue := hiff1.mp hz
      rw [htrue] at hisr1
      exact Bool.noConfusion hisr1
    have hiff2 := onRender_cacheBit isR2 meas2
      (BitmapTextField.onRender isR1 meas1 node r1 pr1).1 r2 pr2 hnz
    rw [hiff2]
    simp [hisr1]
  · -- first rebuild succeeded: the bit is already clear and stays clear
    have hz : (BitmapTextField.onRender isR1 meas1 node r1 pr1).1.mDirty
        &&& DirtyFlag.RENDER_CACHE = 0 := hiff1.mpr hisr1
    have hz2 : (renderSyncStep (BitmapTextField.onRender isR1 meas1 node r1 pr1).1 pr2 r2).1.mDirty
        &&& DirtyFlag.RENDER_CACHE = 0 := by
      rw [renderSyncStep_cacheBit]
      exact hz
    rw [onRender_fst, cacheSyncStep_mDirty, if_neg (not_ne_iff.mpr hz2)]
    simp [hz2, hisr1]

/-- Witness for C1: a pending node whose first rebuild is not renderable
keeps `RENDER_CACHE` set, and a second `onRender` whose rebuild succeeds
clears it. -/
theorem render_cache_cleared_iff_renderable_witness :
    sampleNode.mDirty &&& DirtyFlag.RENDER_CACHE ≠ 0 ∧
    (((BitmapTextField.onRender neverRenderable sampleMeasure
          sampleNode sampleRenderer sampleRenderer).1.mDirty &&& DirtyFlag.RENDER_CACHE = 0
        ↔ neverRenderable (rebuildCache sampleMeasure
            (renderSyncStep sampleNode sampleRenderer sampleRenderer).1
            (renderSyncStep sampleNode sampleRenderer sampleRenderer).2).2 = true)
      ∧
      ((BitmapTextField.onRender alwaysRenderable sampleMeasure
          (BitmapTextField.onRender neverRenderable sampleMeasure
            sampleNode sampleRenderer sampleRenderer).1 sampleRenderer sampleRenderer).1.mDirty
          &&& DirtyFlag.RENDER_CACHE = 0
        ↔ (neverRenderable (rebuildCache sampleMeasure
              (renderSyncStep sampleNode sampleRenderer sampleRenderer).1
              (renderSyncStep sampleNode sampleRenderer sampleRenderer).2).2 = true
            ∨ alwaysRenderable (rebuildCache sampleMeasure
                (renderSyncStep (BitmapTextField.onRender neverRenderable sampleMeasure
                  sampleNode sampleRenderer sampleRenderer).1 sampleRenderer sampleRenderer).1
                (renderSyncStep (BitmapTextField.onRender neverRenderable sampleMeasure
                  sampleNode sampleRenderer sampleRenderer).1 sampleRenderer sampleRenderer).2).2 = true))) :=
  ⟨by decide,
   render_cache_cleared_iff_renderable neverRenderable alwaysRenderable
     sampleMeasure sampleMeasure sampleNode
     sampleRenderer sampleRenderer sampleRenderer sampleRenderer (by decide)⟩

/-- C2: for every dirty mask, each flag-clearing step of `onRender` is
observationally a bitwise AND-NOT of exactly the serviced bits — the
`RENDER` clear and the `RENDER_CACHE` clear leave all other bits
unchanged; the serviced bits are always bits currently set in the mask,
and no clear ever turns on a bit that was clear. -/
theorem onRender_clears_by_and_not
    (isR : Renderer → Bool) (meas : String → Option Nat → ℚ → ℚ × ℚ)
    (node : BitmapTextField) (r pr : Renderer) :
    ((renderSyncStep node pr r).1.mDirty
        = Nat.ldiff node.mDirty
            (if node.mDirty &&& DirtyFlag.RENDER ≠ 0 then DirtyFlag.RENDER else 0))
    ∧
    ((cacheSyncStep isR meas (renderSyncStep node pr r).1 (renderSyncStep node pr r).2).1.mDirty
        = Nat.ldiff (renderSyncStep node pr r).1.mDirty
            (if (renderSyncStep node pr r).1.mDirty &&& DirtyFlag.RENDER_CACHE ≠ 0
                ∧ isR (rebuildCache meas (renderSyncStep node pr r).1 (renderSyncStep node pr r).2).2 = true
             then DirtyFlag.RENDER_CACHE else 0))
    ∧
    ((BitmapTextField.onRender isR meas node r pr).1.mDirty
        = Nat.ldiff node.mDirty
            ((if node.mDirty &&& DirtyFlag.RENDER ≠ 0 then DirtyFlag.RENDER else 0) |||
             (if node.mDirty &&& DirtyFlag.RENDER_CACHE ≠ 0
                 ∧ isR (rebuildCache meas (renderSyncStep node pr r).1 (renderSyncStep node pr r).2).2 = true
              then DirtyFlag.RENDER_CACHE else 0)))
    ∧
    (((if node.mDirty &&& DirtyFlag.RENDER ≠ 0 then DirtyFlag.RENDER else 0) |||
      (if node.mDirty &&& DirtyFlag.RENDER_CACHE ≠ 0
          ∧ isR (rebuildCache meas (renderSyncStep node pr r).1 (renderSyncStep node pr r).2).2 = true
       then DirtyFlag.RENDER_CACHE else 0)) &&& node.mDirty
      = ((if node.mDirty &&& DirtyFlag.RENDER ≠ 0 then DirtyFlag.RENDER else 0) |||
         (if node.mDirty &&& DirtyFlag.RENDER_CACHE ≠ 0
             ∧ isR (rebuildCache meas (renderSyncStep node pr r).1 (renderSyncStep node pr r).2).2 = true
          then DirtyFlag.RENDER_CACHE else 0)))
    ∧
    ((BitmapTextField.onRender isR meas node r pr).1.mDirty &&& node.mDirty
      = (BitmapTextField.onRender isR meas node r pr).1.mDirty) := by
  have hbit3 : node.mDirty &&& DirtyFlag.RENDER ≠ 0 → node.mDirty.testBit 3 = true := by
    intro h
    rw [renderFlag_eq] at h
    exact (and_two_pow_ne_zero_iff _ 3).mp h
  have hbit4 : node.mDirty &&& DirtyFlag.RENDER_CACHE ≠ 0 → node.mDirty.testBit 4 = true := by
    intro h
    rw [renderCacheFlag_eq] at h
    exact (and_two_pow_ne_zero_iff _ 4).mp h
  have hceq := renderSyncStep_cacheBit node pr r
  have hb4n1 : (renderSyncStep node pr r).1.mDirty &&& DirtyFlag.RENDER_CACHE ≠ 0 →
      (renderSyncStep node pr r).1.mDirty.testBit 4 = true := by
    intro h
    rw [renderCacheFlag_eq] at h
    exact (and_two_pow_ne_zero_iff _ 4).mp h
  have h1 : (renderSyncStep node pr r).1.mDirty
      = Nat.ldiff node.mDirty
          (if node.mDirty &&& DirtyFlag.RENDER ≠ 0 then DirtyFlag.RENDER else 0) := by
    rw [renderSyncStep_mDirty]
    by_cases h8 : node.mDirty &&& DirtyFlag.RENDER ≠ 0
    · rw [if_pos h8, if_pos h8, renderFlag_eq]
      exact xor_eq_ldiff_of_testBit (two_pow_subset (hbit3 h8))
    · rw [if_neg h8, if_neg h8, ldiff_zero_right]
  have h2 : (cacheSyncStep isR meas (renderSyncStep node pr r).1 (renderSyncStep node pr r).2).1.mDirty
      = Nat.ldiff (renderSyncStep node pr r).1.mDirty
          (if (renderSyncStep node pr r).1.mDirty &&& DirtyFlag.RENDER_CACHE ≠ 0
              ∧ isR (rebuildCache meas (renderSyncStep node pr r).1 (renderSyncStep node pr r).2).2 = true
           then DirtyFlag.RENDER_CACHE else 0) := by
    rw [cacheSyncStep_mDirty]
    by_cases hcache : (renderSyncStep node pr r).1.mDirty &&& DirtyFlag.RENDER_CACHE ≠ 0
    · cases hisr : isR (rebuildCache meas (renderSyncStep node pr r).1 (renderSyncStep node pr r).2).2
      · rw [if_pos hcache, if_neg (by simp), if_neg (by simp), ldiff_zero_right]
      · rw [if_pos hcache, if_pos rfl, if_pos ⟨hcache, rfl⟩, renderCacheFlag_eq]
        exact xor_eq_ldiff_of_testBit (two_pow_subset (hb4n1 hcache))
    · rw [if_neg hcache, if_neg (by simp [hcache]), ldiff_zero_right]
  have hmask2 : (if (renderSyncStep node pr r).1.mDirty &&& DirtyFlag.RENDER_CACHE ≠ 0
          ∧ isR (rebuildCache meas (renderSyncStep node pr r).1 (renderSyncStep node pr r).2).2 = true
       then DirtyFlag.RENDER_CACHE else 0)
      = (if node.mDirty &&& DirtyFlag.RENDER_CACHE ≠ 0
          ∧ isR (rebuildCache meas (renderSyncStep node pr r).1 (renderSyncStep node pr r).2).2 = true
       then DirtyFlag.RENDER_CACHE else 0) := by
    exact if_congr (by rw [hceq]) rfl rfl
  have h3 : (BitmapTextField.onRender isR meas node r pr).1.mDirty
      = Nat.ldiff node.mDirty
          ((if node.mDirty &&& DirtyFlag.RENDER ≠ 0 then DirtyFlag.RENDER else 0) |||
           (if node.mDirty &&& DirtyFlag.RENDER_CACHE ≠ 0
               ∧ isR (rebuildCache meas (renderSyncStep node pr r).1 (renderSyncStep node pr r).2).2 = true
            then DirtyFlag.RENDER_CACHE else 0)) := by
    rw [onRender_fst, h2, hmask2, h1, ldiff_ldiff_or]
  have hsub1 : ∀ j, (if node.mDirty &&& DirtyFlag.RENDER ≠ 0 then DirtyFlag.RENDER else 0).testBit j = true →
      node.mDirty.testBit j = true := by
    by_cases h8 : node.mDirty &&& DirtyFlag.RENDER ≠ 0
    · rw [if_pos h8, renderFlag_eq]
      exact two_pow_subset (hbit3 h8)
    · rw [if_neg h8]
      exact zero_subset _
  have hsub2 : ∀ j, (if node.mDirty &&& DirtyFlag.RENDER_CACHE ≠ 0
          ∧ isR (rebuildCache meas (renderSyncStep node pr r).1 (renderSyncStep node pr r).2).2 = true
       then DirtyFlag.RENDER_CACHE else 0).testBit j = true → node.mDirty.testBit j = true := by
    by_cases hcnd : node.mDirty &&& DirtyFlag.RENDER_CACHE ≠ 0
        ∧ isR (rebuildCache meas (renderSyncStep node pr r).1 (renderSyncStep node pr r).2).2 = true
    · rw [if_pos hcnd, renderCacheFlag_eq]
      exact two_pow_subset (hbit4 hcnd.1)
    · rw [if_neg hcnd]
      exact zero_subset _
  refine ⟨h1, h2, h3, and_eq_self_of_testBit (or_subset hsub1 hsub2), ?_⟩
  rw [h3]
  exact ldiff_and_self _ _
